import Mathlib

/-!
Verification development for the Pose-Change-AI-v2 repository.

The orchestration core lives in the top-level App component
(src/unnamed/part_000): reactive state fields, the upload handler,
the generate handler `handleGeneratePose`, and the derived
`isGenerationDisabled` flag.  The upload decoder lives in
src/components/ImageUploader.tsx (`handleFileChange`).  The external
generation call `changePose` (src/services/geminiService.ts) is not part
of the sources; where its behaviour decides a claim it is modelled from
the specification and marked as such.

JavaScript strings are modelled as Lean `String`; the JS operations the
code uses (`split(',')`, `trim()`, `startsWith`) are given explicit
executable models on the underlying character lists so that every claim
can be evaluated on concrete inputs.
-/

/-- Model of JS `String.prototype.startsWith`. -/
def jsStartsWith (s p : String) : Bool :=
  p.data.isPrefixOf s.data

/-- Model of JS `String.prototype.trim` (ASCII whitespace suffices for the
strings the app manipulates). -/
def jsTrim (s : String) : String :=
  String.mk (((s.data.dropWhile Char.isWhitespace).reverse.dropWhile Char.isWhitespace).reverse)

/-- Auxiliary worker for `jsSplitComma`: accumulates the current segment
(in reverse) and splits at every comma. -/
def splitCommaAux : List Char → List Char → List (List Char)
  | [], acc => [acc.reverse]
  | c :: rest, acc =>
      if c = (',') then acc.reverse :: splitCommaAux rest []
      else splitCommaAux rest (c :: acc)

/-- Model of JS `str.split(',')`. -/
def jsSplitComma (s : String) : List String :=
  (splitCommaAux s.data []).map String.mk

/-- Model of JS `dataUrl.split(',')[1]`: `none` models the JS `undefined`
obtained when the string holds no comma. -/
def payloadSegment (dataUrl : String) : Option String :=
  (jsSplitComma dataUrl).get? 1

/-- The source-image payload extraction of `handleGeneratePose`
(part_000 lines 70-74): the segment after the first comma, treated as
missing when it is absent or empty (JS falsiness of `undefined` and of
the empty string). -/
def sourceBase64 (dataUrl : String) : Option String :=
  match payloadSegment dataUrl with
  | none => none
  | some p => if p = ("") then none else some p

/-- The `ImageFile` record of src/types: a data URL plus declared MIME
type, produced by `FileReader.readAsDataURL`. -/
structure ImageFile where
  dataUrl : String
  mimeType : String
deriving DecidableEq

/-- The reactive state fields of the App component
(part_000 lines 11-20). -/
structure AppState where
  originalImage : Option ImageFile
  backgroundImage : Option ImageFile
  clothingImage : Option ImageFile
  generatedImage : Option String
  prompt : String
  clothingPrompt : String
  backgroundPrompt : String
  preserveBodyShape : Bool
  isLoading : Bool
  error : Option String
deriving DecidableEq

/-- The `useState` initial values (part_000 lines 11-20):
`preserveBodyShape` defaults to `true` and `isLoading` starts `true`
while the sample image loads. -/
def initialState : AppState :=
  { originalImage := none
    backgroundImage := none
    clothingImage := none
    generatedImage := none
    prompt := ("")
    clothingPrompt := ("")
    backgroundPrompt := ("")
    preserveBodyShape := true
    isLoading := true
    error := none }

/-- Validation-failure message (part_000 line 61). -/
def validationMsg : String :=
  ("Please describe what you want to change (pose, clothing, or background).")

/-- Message of the error thrown on a payload-less source data URL
(part_000 line 73). -/
def invalidDataUrlMsg : String :=
  ("Invalid image data URL.")

/-- The catch-block error text (part_000 line 92): a fixed preamble
followed by the caught error message verbatim. -/
def genFailMsg (detail : String) : String :=
  ("Failed to generate new pose. ") ++ detail

/-- Message shown when the initial sample image cannot be fetched
(part_000 line 43). -/
def loadFailMsg : String :=
  ("Could not load the sample image. Please upload your own.")

/-- The no-modifier part of the guard on part_000 line 60:
all three prompts trim to empty and neither reference image is set. -/
def noModifierActive (s : AppState) : Bool :=
  (jsTrim s.prompt == ("")) && (jsTrim s.clothingPrompt == ("")) &&
    (jsTrim s.backgroundPrompt == ("")) && s.backgroundImage.isNone &&
    s.clothingImage.isNone

/-- The whole rejection condition of part_000 line 60:
no source image, or no active modifier. -/
def submissionInvalid (s : AppState) : Bool :=
  s.originalImage.isNone || noModifierActive s

/-- The derived `isGenerationDisabled` flag (part_000 line 98). -/
def isGenerationDisabled (s : AppState) : Bool :=
  s.isLoading || submissionInvalid s

/-- The exact argument tuple handed to the external `changePose` call
(part_000 lines 76-87). -/
structure GenerationCall where
  base64ImageData : String
  mimeType : String
  backgroundImageBase64 : Option String
  backgroundMimeType : Option String
  clothingImageBase64 : Option String
  clothingMimeType : Option String
  prompt : String
  backgroundPrompt : String
  clothingPrompt : String
  preserveBodyShape : Bool
deriving DecidableEq

/-- Builds the `changePose` argument tuple from the current state
(part_000 lines 76-87).  For the reference images the code passes
`img ? img.dataUrl.split(',')[1] : null`; `none` models both the `null`
of an absent image and the `undefined` of a comma-free data URL, which
JS truthiness downstream cannot tell apart. -/
def mkCall (s : AppState) (orig : ImageFile) (base64Data : String) : GenerationCall :=
  { base64ImageData := base64Data
    mimeType := orig.mimeType
    backgroundImageBase64 := s.backgroundImage.bind (fun b => payloadSegment b.dataUrl)
    backgroundMimeType := s.backgroundImage.map ImageFile.mimeType
    clothingImageBase64 := s.clothingImage.bind (fun c => payloadSegment c.dataUrl)
    clothingMimeType := s.clothingImage.map ImageFile.mimeType
    prompt := s.prompt
    backgroundPrompt := s.backgroundPrompt
    clothingPrompt := s.clothingPrompt
    preserveBodyShape := s.preserveBodyShape }

/-- Outcome of the awaited external `changePose` call: the returned
base64 image, or a raised error carrying a message. -/
inductive ClientOutcome where
  | ok (newImageBase64 : String)
  | err (message : String)
deriving DecidableEq

/-- The synchronous front half of `handleGeneratePose`
(part_000 lines 59-87, up to the `await`): the validation guard, the
loading/error/result resets, the source-payload extraction with its
thrown-and-caught codec error, and the construction of the `changePose`
argument tuple.  Returns the state reached and the call made, if any. -/
def beginGenerate (s : AppState) : AppState × Option GenerationCall :=
  match s.originalImage with
  | none => ({ s with error := some validationMsg }, none)
  | some orig =>
    if noModifierActive s then ({ s with error := some validationMsg }, none)
    else
      match sourceBase64 orig.dataUrl with
      | none =>
          ({ s with isLoading := false
                    error := some (genFailMsg invalidDataUrlMsg)
                    generatedImage := none }, none)
      | some b =>
          ({ s with isLoading := true, error := none, generatedImage := none },
           some (mkCall s orig b))

/-- The back half of `handleGeneratePose` (part_000 lines 88-95): the
resolution of the awaited call, the catch block, and the `finally`
clearing of the loading flag.  It acts on whatever the state is when the
call resolves. -/
def completeGenerate (s : AppState) (outcome : ClientOutcome) : AppState :=
  match outcome with
  | ClientOutcome.ok img => { s with generatedImage := some img, isLoading := false }
  | ClientOutcome.err m => { s with error := some (genFailMsg m), isLoading := false }

/-- Result of one whole run of `handleGeneratePose`: the final state and
the external call made, if any. -/
structure GenResult where
  state : AppState
  call : Option GenerationCall
deriving DecidableEq

/-- The whole `handleGeneratePose` handler (part_000 lines 59-96) run to
completion with no interleaved events, the external call abstracted by
the `outcome` parameter. -/
def handleGeneratePose (s : AppState) (outcome : ClientOutcome) : GenResult :=
  match beginGenerate s with
  | (s2, none) => { state := s2, call := none }
  | (s2, some call) => { state := completeGenerate s2 outcome, call := some call }

/-- The `handleImageUpload` handler (part_000 lines 53-57). -/
def handleImageUpload (s : AppState) (imageFile : ImageFile) : AppState :=
  { s with originalImage := some imageFile, generatedImage := none, error := none }

/-- The standard base64 alphabet, as used by `FileReader.readAsDataURL`. -/
def b64Alphabet : String :=
  ("ABCDEFGHIJKLMNOPQRSTUVWXYZabcdefghijklmnopqrstuvwxyz0123456789+/")

/-- The base64 digit for a 6-bit value. -/
def b64Char (n : Nat) : Char :=
  b64Alphabet.data.getD n ('A')

/-- Worker for `b64Val`: position of a character in the alphabet. -/
def b64ValAux : List Char → Nat → Char → Option Nat
  | [], _, _ => none
  | a :: rest, i, c => if a = c then some i else b64ValAux rest (i + 1) c

/-- The 6-bit value of a base64 digit. -/
def b64Val (c : Char) : Option Nat :=
  b64ValAux b64Alphabet.data 0 c

/-- Standard base64 encoding of a byte list (RFC 4648), three bytes per
four digits with `=` padding: the behaviour of the browser
`FileReader.readAsDataURL` payload. -/
def base64EncodeList : List Nat → List Char
  | [] => []
  | [a] => [b64Char (a / 4), b64Char (a % 4 * 16), ('='), ('=')]
  | [a, b] => [b64Char (a / 4), b64Char (a % 4 * 16 + b / 16), b64Char (b % 16 * 4), ('=')]
  | a :: b :: c :: rest =>
      b64Char (a / 4) :: b64Char (a % 4 * 16 + b / 16) ::
        b64Char (b % 16 * 4 + c / 64) :: b64Char (c % 64) :: base64EncodeList rest

/-- String form of `base64EncodeList`. -/
def base64Encode (bytes : List Nat) : String :=
  String.mk (base64EncodeList bytes)

/-- Standard base64 decoding, quad by quad, honouring `=` padding. -/
def base64DecodeList : List Char → Option (List Nat)
  | [] => some []
  | c1 :: c2 :: c3 :: c4 :: rest =>
      (b64Val c1).bind (fun v1 =>
      (b64Val c2).bind (fun v2 =>
      if c3 = ('=') then
        if c4 = ('=') ∧ rest = [] ∧ v2 % 16 = 0 then some [v1 * 4 + v2 / 16] else none
      else
        (b64Val c3).bind (fun v3 =>
        if c4 = ('=') then
          if rest = [] ∧ v3 % 4 = 0 then some [v1 * 4 + v2 / 16, v2 % 16 * 16 + v3 / 4]
          else none
        else
          (b64Val c4).bind (fun v4 =>
          (base64DecodeList rest).map (fun t =>
            (v1 * 4 + v2 / 16) :: (v2 % 16 * 16 + v3 / 4) :: (v3 % 4 * 64 + v4) :: t)))))
  | _ => none

/-- String form of `base64DecodeList`. -/
def base64Decode (s : String) : Option (List Nat) :=
  base64DecodeList s.data

/-- An uploaded (or dropped) file as the uploader sees it: raw byte
values and the declared media type. -/
structure UploadedFile where
  bytes : List Nat
  type : String
deriving DecidableEq

/-- Behaviour of the browser `FileReader.readAsDataURL` (RFC 2397): the
transport envelope `data:<type>;base64,` followed by the base64
payload. -/
def readAsDataURL (f : UploadedFile) : String :=
  ("data:") ++ f.type ++ (";base64,") ++ base64Encode f.bytes

/-- The upload decoder `handleFileChange`
(src/components/ImageUploader.tsx lines 13-24): an `ImageFile` is
produced exactly when a file is present and its declared type starts
with `image/`; otherwise the handler silently does nothing. -/
def handleFileChange (file : Option UploadedFile) : Option ImageFile :=
  match file with
  | none => none
  | some f =>
      if jsStartsWith f.type ("image/") then
        some { dataUrl := readAsDataURL f, mimeType := f.type }
      else none

/-- The three raster types the uploader advertises (the `accept`
attribute on the file input, ImageUploader.tsx). -/
def acceptedImageTypes : List String :=
  [("image/png"), ("image/jpeg"), ("image/webp")]

/-- The wire-form conversion of an asset (part_000 lines 70-74):
strip the data-URI envelope; fail when there is no payload segment after
the comma (or it is empty), as the code's thrown
`Invalid image data URL.` error does. -/
def toWireForm (asset : ImageFile) : Except String (String × String) :=
  match sourceBase64 asset.dataUrl with
  | none => Except.error invalidDataUrlMsg
  | some p => Except.ok (p, asset.mimeType)

/-- One directive of the assembled generation request: absent, a text
description, or a reference image in wire form. -/
inductive Directive where
  | empty
  | text (t : String)
  | image (payload : String) (mimeType : String)
deriving DecidableEq

/-- Modelled from the spec: the directive selection of the request
assembler inside `changePose` (src/services/geminiService.ts, absent
from src/).  Spec section 4.3: the reference image is preferred when
present, else the text, an empty text meaning no directive. -/
def mkDirective (img : Option String) (mime : Option String) (txt : String) : Directive :=
  match img, mime with
  | some p, some m => Directive.image p m
  | _, _ => if txt = ("") then Directive.empty else Directive.text txt

/-- The immutable generation request assembled for the external
capability. -/
structure GenerationRequest where
  sourcePayload : String
  sourceMimeType : String
  pose : String
  clothing : Directive
  background : Directive
  preserveBodyShape : Bool
deriving DecidableEq

/-- Modelled from the spec: the request assembly performed inside
`changePose` (src/services/geminiService.ts, absent from src/).  Spec
section 4.3: one directive per modifier category, the pose directive is
the pose text passed as-is (empty meaning no change requested), clothing
and background prefer their reference image over their text, and the
body-shape flag is copied verbatim. -/
def changePoseAssemble (c : GenerationCall) : GenerationRequest :=
  { sourcePayload := c.base64ImageData
    sourceMimeType := c.mimeType
    pose := c.prompt
    clothing := mkDirective c.clothingImageBase64 c.clothingMimeType c.clothingPrompt
    background := mkDirective c.backgroundImageBase64 c.backgroundMimeType c.backgroundPrompt
    preserveBodyShape := c.preserveBodyShape }

example : handleGeneratePose initialState (ClientOutcome.ok ("x")) =
    { state := { initialState with error := some validationMsg }, call := none } := by decide

example : base64Decode (base64Encode [77, 97, 110, 33]) = some [77, 97, 110, 33] := by decide

example : base64Encode [77, 97, 110] = ("TWFu") := by decide

/-- Whole-application state: the reactive fields plus whether a
`changePose` call is currently in flight. -/
structure SysState where
  app : AppState
  pending : Bool
deriving DecidableEq

/-- One step of the application: a field edit, an upload, the generate
trigger (which the UI delivers only while `isGenerationDisabled` is
false, part_000 lines 246-253), or the resolution of the in-flight
call.  `generateStart` performs the synchronous front half of
`handleGeneratePose`; `generateFinish` applies the back half to the
state current at resolution time, as the reactive setters do. -/
inductive AppStep : SysState → SysState → Prop where
  | upload (σ : SysState) (f : ImageFile) :
      AppStep σ { app := handleImageUpload σ.app f, pending := σ.pending }
  | editPrompt (σ : SysState) (t : String) :
      AppStep σ { app := { σ.app with prompt := t }, pending := σ.pending }
  | editClothingPrompt (σ : SysState) (t : String) :
      AppStep σ { app := { σ.app with clothingPrompt := t }, pending := σ.pending }
  | editBackgroundPrompt (σ : SysState) (t : String) :
      AppStep σ { app := { σ.app with backgroundPrompt := t }, pending := σ.pending }
  | editPreserveBodyShape (σ : SysState) (b : Bool) :
      AppStep σ { app := { σ.app with preserveBodyShape := b }, pending := σ.pending }
  | editClothingImage (σ : SysState) (i : Option ImageFile) :
      AppStep σ { app := { σ.app with clothingImage := i }, pending := σ.pending }
  | editBackgroundImage (σ : SysState) (i : Option ImageFile) :
      AppStep σ { app := { σ.app with backgroundImage := i }, pending := σ.pending }
  | generateStart (σ : SysState) (h : isGenerationDisabled σ.app = false) :
      AppStep σ { app := (beginGenerate σ.app).1, pending := ((beginGenerate σ.app).2).isSome }
  | generateFinish (σ : SysState) (outcome : ClientOutcome) (h : σ.pending = true) :
      AppStep σ { app := completeGenerate σ.app outcome, pending := false }

/-- The states the application can reach: the one-shot initial sample
load has completed, successfully (part_000 lines 33-39) or not
(part_000 lines 41-46), and then any sequence of steps has run.  While
the load is still in flight `isLoading` is `true`, every control is
disabled and no step can fire, so the two load outcomes are the
effective start states. -/
inductive AppReachable : SysState → Prop where
  | initLoaded (f : ImageFile) :
      AppReachable { app := { initialState with originalImage := some f, isLoading := false },
                     pending := false }
  | initLoadFailed :
      AppReachable { app := { initialState with error := some loadFailMsg, isLoading := false },
                     pending := false }
  | step (σ σ' : SysState) : AppReachable σ → AppStep σ σ' → AppReachable σ'

/-- Inductive invariant: a surfaced result excludes a surfaced error,
and an in-flight call implies both were just cleared and the loading
flag is up. -/
def StateInv (σ : SysState) : Prop :=
  (σ.app.generatedImage ≠ none → σ.app.error = none) ∧
    (σ.pending = true →
      σ.app.error = none ∧ σ.app.generatedImage = none ∧ σ.app.isLoading = true)

/-- An enabled generate trigger means: not loading, a source image
present, and some modifier active. -/
theorem disabled_false_elim (s : AppState) (h : isGenerationDisabled s = false) :
    s.isLoading = false ∧ s.originalImage.isNone = false ∧ noModifierActive s = false := by
  unfold isGenerationDisabled submissionInvalid at h
  simp only [Bool.or_eq_false_iff] at h
  exact ⟨h.1, h.2.1, h.2.2⟩

/-- Every step preserves the invariant. -/
theorem appStep_preserves_inv (σ σ' : SysState) (hs : AppStep σ σ')
    (hi : StateInv σ) : StateInv σ' := by
  cases hs with
  | upload f =>
      unfold StateInv handleImageUpload
      refine ⟨fun h => rfl, fun hp => ⟨rfl, rfl, ?_⟩⟩
      exact (hi.2 hp).2.2
  | editPrompt t =>
      exact ⟨fun h => hi.1 h, fun hp => hi.2 hp⟩
  | editClothingPrompt t =>
      exact ⟨fun h => hi.1 h, fun hp => hi.2 hp⟩
  | editBackgroundPrompt t =>
      exact ⟨fun h => hi.1 h, fun hp => hi.2 hp⟩
  | editPreserveBodyShape b =>
      exact ⟨fun h => hi.1 h, fun hp => hi.2 hp⟩
  | editClothingImage i =>
      exact ⟨fun h => hi.1 h, fun hp => hi.2 hp⟩
  | editBackgroundImage i =>
      exact ⟨fun h => hi.1 h, fun hp => hi.2 hp⟩
  | generateStart h =>
      obtain ⟨hl, ho, hm⟩ := disabled_false_elim σ.app h
      unfold StateInv beginGenerate
      cases horig : σ.app.originalImage with
      | none => rw [horig] at ho; simp at ho
      | some orig =>
          simp only [horig, hm, Bool.false_eq_true, if_false]
          cases hsb : sourceBase64 orig.dataUrl with
          | none => simp [hsb]
          | some b => simp [hsb]
  | generateFinish outcome h =>
      obtain ⟨he, hg, _⟩ := hi.2 h
      unfold StateInv completeGenerate
      cases outcome with
      | ok img => exact ⟨fun _ => he, fun hp => by simp at hp⟩
      | err m => exact ⟨fun hcon => absurd hg hcon, fun hp => by simp at hp⟩

/-- The invariant holds in every reachable state. -/
theorem appReachable_inv (σ : SysState) (h : AppReachable σ) : StateInv σ := by
  induction h with
  | initLoaded f => exact ⟨fun _ => rfl, fun hp => by simp at hp⟩
  | initLoadFailed => exact ⟨fun hcon => absurd rfl hcon, fun hp => by simp at hp⟩
  | step σ σ' hr hs ih => exact appStep_preserves_inv σ σ' hs ih

/-- Equation lemma: a run whose front half makes no call. -/
theorem handleGeneratePose_eq_none (s : AppState) (outcome : ClientOutcome)
    (s2 : AppState) (hb : beginGenerate s = (s2, none)) :
    handleGeneratePose s outcome = { state := s2, call := none } := by
  unfold handleGeneratePose
  rw [hb]

/-- Equation lemma: a run whose front half makes a call. -/
theorem handleGeneratePose_eq_some (s : AppState) (outcome : ClientOutcome)
    (s2 : AppState) (c : GenerationCall) (hb : beginGenerate s = (s2, some c)) :
    handleGeneratePose s outcome =
      { state := completeGenerate s2 outcome, call := some c } := by
  unfold handleGeneratePose
  rw [hb]

/-- Inversion on the front half: when it makes a call, the submission
passed validation, the source payload was extracted, the call is the
`mkCall` tuple, and the state is the cleared Pending state. -/
theorem beginGenerate_some_inv (s s2 : AppState) (c : GenerationCall)
    (hb : beginGenerate s = (s2, some c)) :
    ∃ orig b, s.originalImage = some orig ∧ noModifierActive s = false ∧
      sourceBase64 orig.dataUrl = some b ∧ c = mkCall s orig b ∧
      s2 = { s with isLoading := true, error := none, generatedImage := none } := by
  unfold beginGenerate at hb
  split at hb
  · simp at hb
  · rename_i orig horig
    split at hb
    · simp at hb
    · rename_i hm
      split at hb
      · simp at hb
      · rename_i b hsb
        simp only [Prod.mk.injEq, Option.some.injEq] at hb
        exact ⟨orig, b, horig, by simpa using hm, hsb, hb.2.symm, hb.1.symm⟩

/-- Inversion: when `handleGeneratePose` makes an external call, the
submission passed validation, the source payload was extracted, the call
is exactly the `mkCall` tuple, and the final state is the completion of
the cleared Pending state. -/
theorem handleGeneratePose_call_inv (s : AppState) (outcome : ClientOutcome)
    (c : GenerationCall) (h : (handleGeneratePose s outcome).call = some c) :
    ∃ orig b, s.originalImage = some orig ∧ noModifierActive s = false ∧
      sourceBase64 orig.dataUrl = some b ∧ c = mkCall s orig b ∧
      (handleGeneratePose s outcome).state =
        completeGenerate
          { s with isLoading := true, error := none, generatedImage := none } outcome := by
  cases hb : beginGenerate s with
  | mk s2 oc =>
      cases oc with
      | none =>
          rw [handleGeneratePose_eq_none s outcome s2 hb] at h
          simp at h
      | some c0 =>
          rw [handleGeneratePose_eq_some s outcome s2 c0 hb] at h
          simp only [Option.some.injEq] at h
          obtain ⟨orig, b, horig, hm, hsb, hc, hs2⟩ := beginGenerate_some_inv s s2 c0 hb
          subst h
          refine ⟨orig, b, horig, hm, hsb, hc, ?_⟩
          rw [handleGeneratePose_eq_some s outcome s2 c0 hb, hs2]

/-- A sample decoded image asset: a well-formed data URL whose payload
segment is `QUJD`. -/
def sampleImage : ImageFile :=
  { dataUrl := ("data:image/png;base64,QUJD"), mimeType := ("image/png") }

/-- The state right after a successful sample load: source image set,
loading flag down, everything else at its default. -/
def freshLoadedState : AppState :=
  { initialState with originalImage := some sampleImage
                      isLoading := false }

/-- The state right before a valid generate trigger: sample source
image, a pose prompt, sample load finished. -/
def preTriggerState : AppState :=
  { initialState with originalImage := some sampleImage
                      prompt := ("strike a pose")
                      isLoading := false }

/-- The state while a valid generation is in flight (Pending):
same fields with the loading flag up. -/
def pendingValidState : AppState :=
  { initialState with originalImage := some sampleImage
                      prompt := ("strike a pose")
                      isLoading := true }

/-- Claim C3: a submission lacking a source image is rejected — the
handler only sets the rejection message and returns, making no client
call — and this holds whatever the other fields are, i.e. the missing
source is detected first. -/
theorem no_source_rejected (s : AppState) (outcome : ClientOutcome)
    (h : s.originalImage = none) :
    handleGeneratePose s outcome =
      { state := { s with error := some validationMsg }, call := none } := by
  unfold handleGeneratePose beginGenerate
  rw [h]

/-- Witness for C3 at a concrete submission that even has an active
clothing modifier: the missing source image still rejects first. -/
theorem no_source_rejected_witness :
    handleGeneratePose { initialState with clothingPrompt := ("a suit") }
        (ClientOutcome.ok ("y")) =
      { state := { { initialState with clothingPrompt := ("a suit") } with
                     error := some validationMsg },
        call := none } :=
  no_source_rejected { initialState with clothingPrompt := ("a suit") }
    (ClientOutcome.ok ("y")) rfl

/-- Claim C4: a submission with a source image but every modifier empty
(all three prompts empty, neither reference image set) is rejected with
the validation message and no external call is made. -/
theorem no_modifier_rejected (s : AppState) (outcome : ClientOutcome) (orig : ImageFile)
    (ho : s.originalImage = some orig)
    (hp : s.prompt = ("")) (hcp : s.clothingPrompt = (""))
    (hbp : s.backgroundPrompt = (""))
    (hci : s.clothingImage = none) (hbi : s.backgroundImage = none) :
    handleGeneratePose s outcome =
      { state := { s with error := some validationMsg }, call := none } := by
  have hm : noModifierActive s = true := by
    unfold noModifierActive
    rw [hp, hcp, hbp, hci, hbi]
    decide
  unfold handleGeneratePose beginGenerate
  rw [ho, hm]
  simp

/-- Witness for C4: the freshly loaded state with no field touched. -/
theorem no_modifier_rejected_witness :
    handleGeneratePose freshLoadedState (ClientOutcome.ok ("y")) =
      { state := { freshLoadedState with error := some validationMsg },
        call := none } :=
  no_modifier_rejected _ _ sampleImage rfl rfl rfl rfl rfl rfl

/-- Claim C1 counterexample: a reachable Pending state (a valid
generation in flight, `isLoading` up) in which invoking
`handleGeneratePose` again is not a no-op: the handler has no in-flight
guard, so a second external call is made. -/
theorem second_call_while_pending :
    AppReachable { app := pendingValidState, pending := true } ∧
    pendingValidState.isLoading = true ∧
    ((handleGeneratePose pendingValidState (ClientOutcome.ok ("second"))).call).isSome
        = true := by
  refine ⟨?_, rfl, by decide⟩
  have h1 : AppReachable { app := freshLoadedState, pending := false } :=
    AppReachable.initLoaded sampleImage
  have h2 : AppReachable { app := preTriggerState, pending := false } :=
    AppReachable.step _ _ h1 (AppStep.editPrompt _ ("strike a pose"))
  exact AppReachable.step _ _ h2 (AppStep.generateStart _ (by decide))

/-- Claim C1 (amended): the controller function itself has no in-flight
check; the at-most-one-in-flight guarantee rests on the presentation
layer, which does hold up its side: in every Pending state
`isGenerationDisabled` is `true`, so a trigger respecting the disabled
flag is discarded and no second client call is made. -/
theorem pending_trigger_disabled (s : AppState) (h : s.isLoading = true) :
    isGenerationDisabled s = true := by
  unfold isGenerationDisabled
  rw [h]
  simp

/-- Witness for the amended C1 at the concrete Pending state. -/
theorem pending_trigger_disabled_witness :
    isGenerationDisabled pendingValidState = true :=
  pending_trigger_disabled pendingValidState rfl

/-- Claim C5: whenever the external call was made and it raised an error
with message `m`, the handler catches it, the surfaced error is exactly
the fixed preamble followed by `m` verbatim, the loading (Pending) flag
ends `false`, and no stale result survives. -/
theorem client_failure_handled (s : AppState) (m : String) (c : GenerationCall)
    (h : (handleGeneratePose s (ClientOutcome.err m)).call = some c) :
    (handleGeneratePose s (ClientOutcome.err m)).state.error = some (genFailMsg m) ∧
    genFailMsg m = ("Failed to generate new pose. ") ++ m ∧
    (handleGeneratePose s (ClientOutcome.err m)).state.isLoading = false ∧
    (handleGeneratePose s (ClientOutcome.err m)).state.generatedImage = none := by
  obtain ⟨orig, b, ho, hm, hsb, hc, hstate⟩ :=
    handleGeneratePose_call_inv s (ClientOutcome.err m) c h
  rw [hstate]
  exact ⟨rfl, rfl, rfl, rfl⟩

/-- Witness for C5: the spec scenario — a transport error with message
`timeout` ends in a Failed state whose detail contains `timeout`. -/
theorem client_failure_handled_witness :
    (handleGeneratePose preTriggerState (ClientOutcome.err ("timeout"))).state.error
        = some (genFailMsg ("timeout")) ∧
    genFailMsg ("timeout") = ("Failed to generate new pose. ") ++ ("timeout") ∧
    (handleGeneratePose preTriggerState (ClientOutcome.err ("timeout"))).state.isLoading
        = false ∧
    (handleGeneratePose preTriggerState
        (ClientOutcome.err ("timeout"))).state.generatedImage = none :=
  client_failure_handled preTriggerState ("timeout")
    (mkCall preTriggerState sampleImage ("QUJD")) (by decide)

/-- Claim C10: in every reachable application state a non-null generated
result and a non-null error are never surfaced together. -/
theorem result_error_exclusive (σ : SysState) (h : AppReachable σ)
    (hg : σ.app.generatedImage ≠ none) : σ.app.error = none :=
  (appReachable_inv σ h).1 hg

/-- A reachable Succeeded state: load, type a pose prompt, generate,
client returns an image. -/
def succeededState : SysState :=
  { app := { pendingValidState with generatedImage := some ("newpose"), isLoading := false },
    pending := false }

/-- Witness for C10 on the concrete reachable Succeeded state. -/
theorem result_error_exclusive_witness : succeededState.app.error = none := by
  have h1 : AppReachable { app := freshLoadedState, pending := false } :=
    AppReachable.initLoaded sampleImage
  have h2 : AppReachable { app := preTriggerState, pending := false } :=
    AppReachable.step _ _ h1 (AppStep.editPrompt _ ("strike a pose"))
  have h3 : AppReachable { app := pendingValidState, pending := true } :=
    AppReachable.step _ _ h2 (AppStep.generateStart _ (by decide))
  have h4 : AppReachable succeededState :=
    AppReachable.step _ _ h3 (AppStep.generateFinish _ (ClientOutcome.ok ("newpose")) rfl)
  exact result_error_exclusive succeededState h4 (by decide)

/-- Claim C2: in every run that reaches the external call, a modifier
category holding both a reference image (with a payload segment) and a
text is assembled with the image as its directive; the text does not
appear in the directive. -/
theorem image_precedence (s : AppState) (outcome : ClientOutcome) (c : GenerationCall)
    (h : (handleGeneratePose s outcome).call = some c) :
    (∀ ci p, s.clothingImage = some ci → payloadSegment ci.dataUrl = some p →
        (changePoseAssemble c).clothing = Directive.image p ci.mimeType) ∧
    (∀ bi p, s.backgroundImage = some bi → payloadSegment bi.dataUrl = some p →
        (changePoseAssemble c).background = Directive.image p bi.mimeType) := by
  obtain ⟨orig, b, ho, hm, hsb, hc, hstate⟩ := handleGeneratePose_call_inv s outcome c h
  subst hc
  constructor
  · intro ci p hci hp
    unfold changePoseAssemble mkCall mkDirective
    simp [hci, hp]
  · intro bi p hbi hp
    unfold changePoseAssemble mkCall mkDirective
    simp [hbi, hp]

/-- A submission in conflict: both modifier categories carry a
reference image and a non-empty text. -/
def conflictState : AppState :=
  { initialState with originalImage := some sampleImage
                      clothingImage := some sampleImage
                      clothingPrompt := ("red dress")
                      backgroundImage := some sampleImage
                      backgroundPrompt := ("a sunny beach")
                      isLoading := false }

/-- Witness for C2: the spec scenario — clothing image set and clothing
text `red dress`; the assembled clothing directive is the image. -/
theorem image_precedence_witness :
    (changePoseAssemble (mkCall conflictState sampleImage ("QUJD"))).clothing =
        Directive.image ("QUJD") sampleImage.mimeType ∧
    (changePoseAssemble (mkCall conflictState sampleImage ("QUJD"))).background =
        Directive.image ("QUJD") sampleImage.mimeType :=
  ⟨(image_precedence conflictState (ClientOutcome.ok ("y"))
      (mkCall conflictState sampleImage ("QUJD")) (by decide)).1
      sampleImage ("QUJD") rfl (by decide),
   (image_precedence conflictState (ClientOutcome.ok ("y"))
      (mkCall conflictState sampleImage ("QUJD")) (by decide)).2
      sampleImage ("QUJD") rfl (by decide)⟩

/-- Claim C6 (amended): only the source image is codec-checked before
the external call: when the source data URL has no (or an empty) payload
segment, the attempt fails before any call, with the thrown-and-caught
codec message, the loading flag down again. -/
theorem source_malformed_no_call (s : AppState) (orig : ImageFile)
    (outcome : ClientOutcome) (ho : s.originalImage = some orig)
    (hm : noModifierActive s = false)
    (hmal : sourceBase64 orig.dataUrl = none) :
    (handleGeneratePose s outcome).call = none ∧
    (handleGeneratePose s outcome).state.error = some (genFailMsg invalidDataUrlMsg) ∧
    (handleGeneratePose s outcome).state.isLoading = false := by
  unfold handleGeneratePose beginGenerate
  rw [ho, hm]
  simp [hmal]

/-- A state whose source image data URL has no comma, hence no payload
segment. -/
def malformedSourceState : AppState :=
  { initialState with originalImage := some { dataUrl := ("garbled")
                                              mimeType := ("image/png") }
                      prompt := ("wave")
                      isLoading := false }

/-- Witness for the amended C6 at the concrete malformed source. -/
theorem source_malformed_no_call_witness :
    (handleGeneratePose malformedSourceState (ClientOutcome.ok ("y"))).call = none ∧
    (handleGeneratePose malformedSourceState (ClientOutcome.ok ("y"))).state.error =
        some (genFailMsg invalidDataUrlMsg) ∧
    (handleGeneratePose malformedSourceState (ClientOutcome.ok ("y"))).state.isLoading
        = false :=
  source_malformed_no_call malformedSourceState
    { dataUrl := ("garbled"), mimeType := ("image/png") }
    (ClientOutcome.ok ("y")) rfl (by decide) (by decide)

/-- A state with a well-formed source image but a clothing reference
image whose data URL has no payload segment. -/
def malformedRefState : AppState :=
  { initialState with originalImage := some sampleImage
                      clothingImage := some { dataUrl := ("garbled-no-comma")
                                              mimeType := ("image/png") }
                      prompt := ("wave")
                      isLoading := false }

/-- Claim C6 counterexample: a clothing reference image with no payload
segment does not stop the attempt — no codec failure is raised for it,
the external call is still made, and the reference payload is silently
passed as absent. -/
theorem malformed_reference_still_calls :
    payloadSegment ("garbled-no-comma") = none ∧
    ((handleGeneratePose malformedRefState (ClientOutcome.ok ("img"))).call).isSome
        = true ∧
    ((handleGeneratePose malformedRefState (ClientOutcome.ok ("img"))).call.map
        GenerationCall.clothingImageBase64) = some none :=
  ⟨rfl, by decide, by decide⟩

/-- Claim C7 counterexample: the uploader accepts any declared type with
the `image/` scheme, e.g. `image/gif`, which is outside the accepted
raster trio; the resulting asset carries the unrecognised type, and no
`UnsupportedMediaType` failure exists in the code. -/
theorem gif_accepted :
    ((handleFileChange (some { bytes := [71, 73, 70], type := ("image/gif") })).map
        ImageFile.mimeType) = some ("image/gif") ∧
    acceptedImageTypes.contains ("image/gif") = false :=
  ⟨by decide, by decide⟩

/-- Claim C7 (amended): `handleFileChange` produces an asset exactly
when a file is present and its declared type starts with `image/`; any
other declared type is silently ignored (no error value is produced),
and a produced asset carries the declared type and the data URL of the
file's bytes. -/
theorem upload_filter (f : UploadedFile) :
    ((handleFileChange (some f)).isSome = jsStartsWith f.type ("image/")) ∧
    (∀ a, handleFileChange (some f) = some a →
        a.mimeType = f.type ∧ a.dataUrl = readAsDataURL f) := by
  cases hj : jsStartsWith f.type ("image/") with
  | false =>
      constructor
      · simp [handleFileChange, hj]
      · intro a ha
        simp [handleFileChange, hj] at ha
  | true =>
      constructor
      · simp [handleFileChange, hj]
      · intro a ha
        simp [handleFileChange, hj] at ha
        subst ha
        exact ⟨rfl, rfl⟩

/-- Witness for the amended C7 at a concrete png upload. -/
theorem upload_filter_witness :
    handleFileChange (some { bytes := [1, 2, 3], type := ("image/png") }) =
      some { dataUrl := readAsDataURL { bytes := [1, 2, 3], type := ("image/png") }
             mimeType := ("image/png") } ∧
    (({ dataUrl := readAsDataURL { bytes := [1, 2, 3], type := ("image/png") }
        mimeType := ("image/png") } : ImageFile)).mimeType = ("image/png") :=
  ⟨rfl, ((upload_filter { bytes := [1, 2, 3], type := ("image/png") }).2 _ rfl).1⟩

/-- Every in-range 6-bit value decodes back from its base64 digit. -/
theorem b64Val_b64Char : ∀ n, n < 64 → b64Val (b64Char n) = some n := by decide

/-- No in-range base64 digit is the padding character. -/
theorem b64Char_ne_pad : ∀ n, n < 64 → b64Char n ≠ ('=') := by decide

/-- No in-range base64 digit is a comma. -/
theorem b64Char_lt_ne_comma : ∀ n, n < 64 → b64Char n ≠ (',') := by decide

/-- No base64 digit at all is a comma (out of range falls back to the
default `A`). -/
theorem b64Char_ne_comma (n : Nat) : b64Char n ≠ (',') := by
  by_cases h : n < 64
  · exact b64Char_lt_ne_comma n h
  · unfold b64Char
    rw [List.getD_eq_default]
    · decide
    · have hlen : b64Alphabet.data.length = 64 := by decide
      omega

/-- A base64 encoding never contains a comma. -/
theorem comma_not_in_encode : ∀ (l : List Nat), (',') ∉ base64EncodeList l
  | [] => by simp [base64EncodeList]
  | [a] => by
      intro hm
      simp only [base64EncodeList, List.mem_cons, List.not_mem_nil, or_false] at hm
      rcases hm with h1 | h1 | h1 | h1
      · exact b64Char_ne_comma _ h1.symm
      · exact b64Char_ne_comma _ h1.symm
      · exact absurd h1 (by decide)
      · exact absurd h1 (by decide)
  | [a, b] => by
      intro hm
      simp only [base64EncodeList, List.mem_cons, List.not_mem_nil, or_false] at hm
      rcases hm with h1 | h1 | h1 | h1
      · exact b64Char_ne_comma _ h1.symm
      · exact b64Char_ne_comma _ h1.symm
      · exact b64Char_ne_comma _ h1.symm
      · exact absurd h1 (by decide)
  | a :: b :: c :: rest => by
      intro hm
      simp only [base64EncodeList, List.mem_cons] at hm
      rcases hm with h1 | h1 | h1 | h1 | h1
      · exact b64Char_ne_comma _ h1.symm
      · exact b64Char_ne_comma _ h1.symm
      · exact b64Char_ne_comma _ h1.symm
      · exact b64Char_ne_comma _ h1.symm
      · exact comma_not_in_encode rest h1

/-- A nonempty byte list has a nonempty encoding. -/
theorem base64EncodeList_ne_nil : ∀ (l : List Nat), l ≠ [] → base64EncodeList l ≠ []
  | [], h => absurd rfl h
  | [a], _ => by simp [base64EncodeList]
  | [a, b], _ => by simp [base64EncodeList]
  | a :: b :: c :: rest, _ => by simp [base64EncodeList]

/-- String form of `base64EncodeList_ne_nil`. -/
theorem base64Encode_ne_empty (l : List Nat) (h : l ≠ []) : base64Encode l ≠ ("") := by
  intro hcon
  exact base64EncodeList_ne_nil l h (congrArg String.data hcon)

/-- Decoding inverts encoding on byte lists. -/
theorem decode_encode : ∀ (l : List Nat), (∀ x ∈ l, x < 256) →
    base64DecodeList (base64EncodeList l) = some l
  | [], _ => rfl
  | [a], h => by
      have ha : a < 256 := h a (by simp)
      simp only [base64EncodeList, base64DecodeList]
      rw [b64Val_b64Char _ (by omega), b64Val_b64Char _ (by omega)]
      have e1 : a % 4 * 16 % 16 = 0 := by omega
      simp only [Option.some_bind, e1, and_true, true_and, if_true, eq_self_iff_true]
      simp
      omega
  | [a, b], h => by
      have ha : a < 256 := h a (by simp)
      have hb : b < 256 := h b (by simp)
      simp only [base64EncodeList, base64DecodeList]
      rw [b64Val_b64Char _ (by omega), b64Val_b64Char _ (by omega)]
      simp only [Option.some_bind]
      rw [if_neg (b64Char_ne_pad _ (by omega)), b64Val_b64Char _ (by omega)]
      have e1 : b % 16 * 4 % 4 = 0 := by omega
      simp only [Option.some_bind, e1, and_true, true_and, if_true, eq_self_iff_true]
      simp
      omega
  | a :: b :: c :: rest, h => by
      have ha : a < 256 := h a (by simp)
      have hb : b < 256 := h b (by simp)
      have hc : c < 256 := h c (by simp)
      have ih := decode_encode rest (fun x hx => h x (by simp [hx]))
      simp only [base64EncodeList, base64DecodeList]
      rw [b64Val_b64Char _ (by omega), b64Val_b64Char _ (by omega)]
      simp only [Option.some_bind]
      rw [if_neg (b64Char_ne_pad _ (by omega)), b64Val_b64Char _ (by omega)]
      simp only [Option.some_bind]
      rw [if_neg (b64Char_ne_pad _ (by omega)), b64Val_b64Char _ (by omega)]
      simp only [Option.some_bind]
      rw [ih]
      simp
      omega

/-- A comma-free list is one whole segment. -/
theorem splitCommaAux_no_comma (l : List Char) (acc : List Char) (h : (',') ∉ l) :
    splitCommaAux l acc = [acc.reverse ++ l] := by
  induction l generalizing acc with
  | nil => simp [splitCommaAux]
  | cons c rest ih =>
      have hc : ¬(c = (',')) := fun hcc => h (by rw [hcc]; exact List.mem_cons_self _ _)
      have hr : (',') ∉ rest := fun hm => h (List.mem_cons_of_mem c hm)
      simp only [splitCommaAux]
      rw [if_neg hc, ih (c :: acc) hr]
      simp

/-- Splitting at the first comma after a comma-free head. -/
theorem splitCommaAux_append (l1 l2 : List Char) (acc : List Char) (h : (',') ∉ l1) :
    splitCommaAux (l1 ++ (',') :: l2) acc =
      (acc.reverse ++ l1) :: splitCommaAux l2 [] := by
  induction l1 generalizing acc with
  | nil => simp [splitCommaAux]
  | cons c rest ih =>
      have hc : ¬(c = (',')) := fun hcc => h (by rw [hcc]; exact List.mem_cons_self _ _)
      have hr : (',') ∉ rest := fun hm => h (List.mem_cons_of_mem c hm)
      rw [List.cons_append]
      simp only [splitCommaAux, List.append_eq]
      rw [if_neg hc, ih (c :: acc) hr]
      simp

/-- Characters of a string concatenation. -/
theorem strData_append (a b : String) : (a ++ b).data = a.data ++ b.data := rfl

/-- Stripping a `FileReader` data URL recovers exactly the base64
payload, for any declared type without a comma. -/
theorem payloadSegment_readAsDataURL (f : UploadedFile) (hty : (',') ∉ f.type.data) :
    payloadSegment (readAsDataURL f) = some (base64Encode f.bytes) := by
  have hpre : (',') ∉ (("data:").data ++ f.type.data ++ ((";base64").data)) := by
    intro hm
    rcases List.mem_append.mp hm with hm1 | hm2
    · rcases List.mem_append.mp hm1 with hm3 | hm4
      · exact absurd hm3 (by decide)
      · exact hty hm4
    · exact absurd hm2 (by decide)
  have henc : (',') ∉ (base64Encode f.bytes).data := comma_not_in_encode f.bytes
  have hdata : (readAsDataURL f).data =
      (("data:").data ++ f.type.data ++ ((";base64").data)) ++
        (',') :: (base64Encode f.bytes).data := by
    unfold readAsDataURL
    rw [strData_append, strData_append, strData_append]
    have hsb : ((";base64,").data) = ((";base64").data) ++ [(',')] := rfl
    rw [hsb]
    simp [List.append_assoc]
  unfold payloadSegment jsSplitComma
  rw [hdata, splitCommaAux_append _ _ _ hpre, splitCommaAux_no_comma _ _ henc]
  rfl

/-- A successfully extracted nonempty payload passes the falsiness
check. -/
theorem sourceBase64_eq_some (u p : String) (h : payloadSegment u = some p)
    (hp : p ≠ ("")) : sourceBase64 u = some p := by
  unfold sourceBase64
  rw [h]
  show (if p = ("") then none else some p) = some p
  rw [if_neg hp]

/-- Claim C8 counterexample: the empty byte sequence (a zero-byte file)
defeats the round-trip as stated for all byte sequences — its data URL
has an empty payload segment, so `toWireForm` fails with the codec
error instead of reproducing the bytes and type. -/
theorem empty_roundtrip_fails :
    (handleFileChange (some { bytes := [], type := ("image/png") })).map toWireForm =
      some (Except.error invalidDataUrlMsg) := rfl

/-- Claim C8 (amended): for every nonempty byte sequence and accepted
media type, decoding the upload and converting back to wire form
reproduces the declared type exactly and a payload that is precisely
the base64 encoding of the original bytes, which decodes back to them
exactly. -/
theorem wire_roundtrip (bytes : List Nat) (ty : String)
    (hb : ∀ x ∈ bytes, x < 256) (hne : bytes ≠ [])
    (hty : ty ∈ acceptedImageTypes) :
    ∃ a, handleFileChange (some { bytes := bytes, type := ty }) = some a ∧
      toWireForm a = Except.ok (base64Encode bytes, ty) ∧
      base64Decode (base64Encode bytes) = some bytes := by
  have hty3 : ty = ("image/png") ∨ ty = ("image/jpeg") ∨ ty = ("image/webp") := by
    simpa [acceptedImageTypes] using hty
  have hstart : jsStartsWith ty ("image/") = true := by
    rcases hty3 with h | h | h <;> rw [h] <;> decide
  have htyc : (',') ∉ ty.data := by
    rcases hty3 with h | h | h <;> rw [h] <;> decide
  have hasset : handleFileChange (some { bytes := bytes, type := ty }) =
      some { dataUrl := readAsDataURL { bytes := bytes, type := ty }, mimeType := ty } := by
    simp [handleFileChange, hstart]
  refine ⟨_, hasset, ?_, ?_⟩
  · unfold toWireForm
    rw [sourceBase64_eq_some _ _ (payloadSegment_readAsDataURL _ htyc)
      (base64Encode_ne_empty bytes hne)]
  · unfold base64Decode base64Encode
    exact decode_encode bytes hb

/-- Witness for the amended C8 at a concrete two-byte png upload. -/
theorem wire_roundtrip_witness :
    ∃ a, handleFileChange (some { bytes := [72, 105], type := ("image/png") }) = some a ∧
      toWireForm a = Except.ok (base64Encode [72, 105], ("image/png")) ∧
      base64Decode (base64Encode [72, 105]) = some [72, 105] :=
  wire_roundtrip [72, 105] ("image/png") (by decide) (by decide) (by decide)

/-- The spec scenario state for C9: source image present, pose text
`superhero landing pose`, everything else untouched. -/
def poseOnlyState : AppState :=
  { initialState with originalImage := some sampleImage
                      prompt := ("superhero landing pose")
                      isLoading := false }

/-- Claim C9: with a source image, pose text `superhero landing pose`
and all other modifiers at their defaults, the call is made and the
assembled request has exactly that pose directive, absent clothing and
background directives, and `preserveBodyShape` true — the default the
state starts with, copied verbatim. -/
theorem pose_scenario :
    initialState.preserveBodyShape = true ∧
    poseOnlyState.preserveBodyShape = initialState.preserveBodyShape ∧
    ∃ c, (handleGeneratePose poseOnlyState (ClientOutcome.ok ("out"))).call = some c ∧
      (changePoseAssemble c).pose = ("superhero landing pose") ∧
      (changePoseAssemble c).clothing = Directive.empty ∧
      (changePoseAssemble c).background = Directive.empty ∧
      (changePoseAssemble c).preserveBodyShape = true :=
  ⟨rfl, rfl, mkCall poseOnlyState sampleImage ("QUJD"),
    by decide, rfl, by decide, by decide, rfl⟩
